import Mathlib

/-!
Verification of the application bootstrapper in
`src/puertocho-assistant-view/main.cpp` (PuertoCho Assistant dashboard).

The source is a straight-line Qt `main`: it sets two high-DPI platform
attributes, constructs the application object with the process arguments,
sets four identity strings, publishes two QML context properties, registers
a queued observer on `QQmlApplicationEngine::objectCreated`, requests the
load of `qrc:/main.qml`, and enters the event loop.

The embedding below models the toolkit state mutated by `main` as an
explicit record, and each toolkit call as a state update that also emits an
event into a trace.  The outcome of root-document instantiation (the object
delivered with the `objectCreated` signal) is a parameter `loadResult`
(`none` models a null handle, i.e. failure).  Queued-connection dispatch is
modelled faithfully: signal emission enqueues the handler invocation, and
the event loop (`app.exec()`) delivers it on a later turn.
-/

namespace Puertocho

/-- Platform application attributes (`Qt::ApplicationAttribute`); only the
two attributes used by `main.cpp` are modelled. -/
inductive QtAttr where
  | AA_EnableHighDpiScaling
  | AA_UseHighDpiPixmaps
deriving DecidableEq, Repr

/-- Signal-connection dispatch type (`Qt::ConnectionType`). -/
inductive ConnType where
  | DirectConnection
  | QueuedConnection
deriving DecidableEq, Repr

/-- Observable events of a run of `main`, in program order.  A document
handle is modelled as `Option Unit`: `none` is a null pointer. -/
inductive Event where
  | setAttribute (a : QtAttr)
  | constructApp (argv : List String)
  | setApplicationName (s : String)
  | setApplicationVersion (s : String)
  | setOrganizationName (s : String)
  | setOrganizationDomain (s : String)
  | setContextProperty (nm : String) (value : String)
  | connectObjectCreated (ct : ConnType)
  | load (url : String)
  | invokeHandler (obj : Option Unit) (objUrl : String)
  | execLoop
deriving DecidableEq, Repr

/-- The process-wide toolkit state mutated by `main.cpp`.  `contextProps`
is kept most-recent-first, so `List.lookup` sees the latest binding, which
matches `QQmlContext::setContextProperty` overwrite semantics.
`pendingInvocations` is the event-loop queue of deferred handler calls. -/
structure QtState where
  attributes : List QtAttr := []
  appArgv : Option (List String) := none
  applicationName : String := ""
  applicationVersion : String := ""
  organizationName : String := ""
  organizationDomain : String := ""
  contextProps : List (String × String) := []
  connections : List ConnType := []
  requestedLoads : List String := []
  pendingInvocations : List (Option Unit × String) := []
  exitCode : Option Int := none
deriving DecidableEq, Repr

/-- The fixed root-document URL from `main.cpp` line 29:
`const QUrl url(QStringLiteral("qrc:/main.qml"));` -/
def rootUrl : String := "qrc:/main.qml"

/-- The lambda connected to `QQmlApplicationEngine::objectCreated` in
`main.cpp` lines 31-34:
`if (!obj && url == objUrl) QCoreApplication::exit(-1);`
`QCoreApplication::exit(-1)` makes the event loop return `-1`, modelled by
recording `exitCode := some (-1)`. -/
def objectCreatedHandler (url : String) (obj : Option Unit) (objUrl : String)
    (s : QtState) : QtState :=
  if obj = none ∧ url = objUrl then { s with exitCode := some (-1) } else s

/-- Emission of the `objectCreated` signal: for every registered connection,
a `QueuedConnection` defers the handler invocation to the event-loop queue,
while a `DirectConnection` would run the handler synchronously inside the
emitting call. -/
def emitObjectCreated (url : String) (obj : Option Unit) (objUrl : String)
    (s : QtState) : QtState :=
  s.connections.foldl
    (fun st ct =>
      match ct with
      | ConnType.QueuedConnection =>
          { st with pendingInvocations := st.pendingInvocations ++ [(obj, objUrl)] }
      | ConnType.DirectConnection => objectCreatedHandler url obj objUrl st)
    s

/-- One turn of the event loop: deliver all queued handler invocations, in
order, recording an `invokeHandler` event for each. -/
def processQueue (url : String) (s : QtState) : QtState × List Event :=
  s.pendingInvocations.foldl
    (fun acc inv =>
      (objectCreatedHandler url inv.1 inv.2 acc.1,
       acc.2 ++ [Event.invokeHandler inv.1 inv.2]))
    ({ s with pendingInvocations := [] }, [])

/-- The outcome of a full run of `main`: the state and trace right after the
startup sequence (before `app.exec()`), the state and trace after the event
loop has delivered the queued invocations, and the value `main` returns. -/
structure RunResult where
  startup : QtState
  startupTrace : List Event
  final : QtState
  trace : List Event
  returnValue : Int
deriving DecidableEq, Repr

/-- Shallow embedding of `main` from `src/puertocho-assistant-view/main.cpp`.
`argv` are the process arguments; `loadResult` is the document handle the
engine delivers with `objectCreated` once instantiation of the root document
finishes (`none` models a null handle, i.e. load failure).  Every statement
of the source is mirrored in order. -/
def qtMain (argv : List String) (loadResult : Option Unit) : RunResult :=
  let s0 : QtState := {}
  -- QCoreApplication::setAttribute(Qt::AA_EnableHighDpiScaling);
  let s1 := { s0 with attributes := s0.attributes ++ [QtAttr.AA_EnableHighDpiScaling] }
  let t1 := [Event.setAttribute QtAttr.AA_EnableHighDpiScaling]
  -- QCoreApplication::setAttribute(Qt::AA_UseHighDpiPixmaps);
  let s2 := { s1 with attributes := s1.attributes ++ [QtAttr.AA_UseHighDpiPixmaps] }
  let t2 := t1 ++ [Event.setAttribute QtAttr.AA_UseHighDpiPixmaps]
  -- QGuiApplication app(argc, argv);
  let s3 := { s2 with appArgv := some argv }
  let t3 := t2 ++ [Event.constructApp argv]
  -- app.setApplicationName("PuertoCho Assistant Dashboard");
  let s4 := { s3 with applicationName := "PuertoCho Assistant Dashboard" }
  let t4 := t3 ++ [Event.setApplicationName "PuertoCho Assistant Dashboard"]
  -- app.setApplicationVersion("1.0.0");
  let s5 := { s4 with applicationVersion := "1.0.0" }
  let t5 := t4 ++ [Event.setApplicationVersion "1.0.0"]
  -- app.setOrganizationName("PuertoCho");
  let s6 := { s5 with organizationName := "PuertoCho" }
  let t6 := t5 ++ [Event.setOrganizationName "PuertoCho"]
  -- app.setOrganizationDomain("puertocho.local");
  let s7 := { s6 with organizationDomain := "puertocho.local" }
  let t7 := t6 ++ [Event.setOrganizationDomain "puertocho.local"]
  -- context->setContextProperty("applicationVersion", app.applicationVersion());
  let s8 := { s7 with contextProps := ("applicationVersion", s7.applicationVersion) :: s7.contextProps }
  let t8 := t7 ++ [Event.setContextProperty "applicationVersion" s7.applicationVersion]
  -- context->setContextProperty("applicationName", app.applicationName());
  let s9 := { s8 with contextProps := ("applicationName", s8.applicationName) :: s8.contextProps }
  let t9 := t8 ++ [Event.setContextProperty "applicationName" s8.applicationName]
  -- QObject::connect(&engine, &QQmlApplicationEngine::objectCreated, &app,
  --                  [url](QObject *obj, const QUrl &objUrl) {...},
  --                  Qt::QueuedConnection);
  let s10 := { s9 with connections := s9.connections ++ [ConnType.QueuedConnection] }
  let t10 := t9 ++ [Event.connectObjectCreated ConnType.QueuedConnection]
  -- engine.load(url); completion of instantiation emits
  -- objectCreated(loadResult, url); the queued connection defers the handler
  let s11 := { s10 with requestedLoads := s10.requestedLoads ++ [rootUrl] }
  let s12 := emitObjectCreated rootUrl loadResult rootUrl s11
  let t11 := t10 ++ [Event.load rootUrl]
  -- return app.exec(): the event loop delivers the queued invocations on a
  -- later turn, then returns the requested exit code (0 on clean shutdown)
  let pq := processQueue rootUrl s12
  let t12 := t11 ++ pq.2 ++ [Event.execLoop]
  { startup := s12, startupTrace := t11, final := pq.1, trace := t12,
    returnValue := pq.1.exitCode.getD 0 }

/-- Recognizes `setAttribute` events. -/
def Event.isSetAttribute : Event → Bool
  | Event.setAttribute _ => true
  | _ => false

/-- Recognizes the application-object construction event. -/
def Event.isConstructApp : Event → Bool
  | Event.constructApp _ => true
  | _ => false

/-- Recognizes the four identity-string setter events (name, version,
organization name, organization domain). -/
def Event.isIdentitySetter : Event → Bool
  | Event.setApplicationName _ => true
  | Event.setApplicationVersion _ => true
  | Event.setOrganizationName _ => true
  | Event.setOrganizationDomain _ => true
  | _ => false

/-- Recognizes `setApplicationName` events. -/
def Event.isSetApplicationName : Event → Bool
  | Event.setApplicationName _ => true
  | _ => false

/-- Recognizes `setApplicationVersion` events. -/
def Event.isSetApplicationVersion : Event → Bool
  | Event.setApplicationVersion _ => true
  | _ => false

/-- Recognizes `setOrganizationName` events. -/
def Event.isSetOrganizationName : Event → Bool
  | Event.setOrganizationName _ => true
  | _ => false

/-- Recognizes `setOrganizationDomain` events. -/
def Event.isSetOrganizationDomain : Event → Bool
  | Event.setOrganizationDomain _ => true
  | _ => false

/-- Recognizes context-property publication events. -/
def Event.isSetContextProperty : Event → Bool
  | Event.setContextProperty _ _ => true
  | _ => false

/-- Recognizes the observer-registration event. -/
def Event.isConnectObjectCreated : Event → Bool
  | Event.connectObjectCreated _ => true
  | _ => false

/-- Recognizes load-request events. -/
def Event.isLoad : Event → Bool
  | Event.load _ => true
  | _ => false

/-- Recognizes handler-invocation events. -/
def Event.isInvokeHandler : Event → Bool
  | Event.invokeHandler _ _ => true
  | _ => false

/-- `beforeAll p q tr` holds when every event satisfying `p` occurs strictly
before every event satisfying `q` in `tr`: no `p`-event appears at or after
the first `q`-event. -/
def beforeAll (p q : Event → Bool) (tr : List Event) : Bool :=
  (tr.dropWhile (fun e => !q e)).all (fun e => !p e)

/-- Erase the process arguments from a trace event, for comparing runs with
different argument vectors. -/
def eraseArgv : Event → Event
  | Event.constructApp _ => Event.constructApp []
  | e => e

end Puertocho

namespace Puertocho

/-- C1: when the `objectCreated` notification is delivered, the registered
callback terminates the process with exit code -1 if and only if the
delivered document handle is null and the reported path equals the requested
root document path `qrc:/main.qml`; a non-matching path, or a non-null
document, never triggers termination. -/
theorem C1_handler_exit_iff (obj : Option Unit) (objUrl : String) (s : QtState)
    (h : s.exitCode = none) :
    (objectCreatedHandler rootUrl obj objUrl s).exitCode = some (-1) ↔
      obj = none ∧ objUrl = "qrc:/main.qml" := by
  unfold objectCreatedHandler rootUrl
  constructor
  · intro hex
    by_cases hc : obj = none ∧ "qrc:/main.qml" = objUrl
    · exact ⟨hc.1, hc.2.symm⟩
    · rw [if_neg hc, h] at hex
      cases hex
  · intro hc
    rw [if_pos ⟨hc.1, hc.2.symm⟩]

/-- Witness for C1: a null handle reported for `qrc:/main.qml`, starting
from the initial state, triggers exit code -1. -/
theorem C1_handler_exit_iff_witness :
    (objectCreatedHandler rootUrl none "qrc:/main.qml" {}).exitCode = some (-1) :=
  (C1_handler_exit_iff none "qrc:/main.qml" {} rfl).mpr ⟨rfl, rfl⟩

/-- C2: in every execution, the two context-property publications and the
four identity-string setters all occur strictly before the load request for
the root UI document. -/
theorem C2_identity_and_context_before_load (argv : List String) (r : Option Unit) :
    (qtMain argv r).trace.countP Event.isSetContextProperty = 2 ∧
    (qtMain argv r).trace.countP Event.isIdentitySetter = 4 ∧
    (qtMain argv r).trace.countP Event.isLoad = 1 ∧
    beforeAll (fun e => Event.isSetContextProperty e || Event.isIdentitySetter e)
      Event.isLoad (qtMain argv r).trace = true :=
  ⟨rfl, rfl, rfl, rfl⟩

/-- C3: for every launch in which the root document loads successfully, the
context property `applicationName` equals "PuertoCho Assistant Dashboard"
and `applicationVersion` equals "1.0.0", each bound to the corresponding
identity string set on the application object. -/
theorem C3_context_property_values (argv : List String) :
    (qtMain argv (some ())).final.contextProps.lookup "applicationName" =
      some (qtMain argv (some ())).final.applicationName ∧
    (qtMain argv (some ())).final.contextProps.lookup "applicationVersion" =
      some (qtMain argv (some ())).final.applicationVersion ∧
    (qtMain argv (some ())).final.applicationName = "PuertoCho Assistant Dashboard" ∧
    (qtMain argv (some ())).final.applicationVersion = "1.0.0" :=
  ⟨rfl, rfl, rfl, rfl⟩

/-- C4 counterexample: in the concrete run with empty arguments and a
successful load, the trace contains exactly one load event and one
observer-registration event, yet the load event does NOT precede the
registration event, refuting the claimed order. -/
theorem C4_counterexample :
    (qtMain [] (some ())).trace.countP Event.isLoad = 1 ∧
    (qtMain [] (some ())).trace.countP Event.isConnectObjectCreated = 1 ∧
    beforeAll Event.isLoad Event.isConnectObjectCreated
      (qtMain [] (some ())).trace = false :=
  ⟨rfl, rfl, rfl⟩

/-- C4 (amended): in every execution the observer on the
document-instantiation-completed notification is registered strictly before
the asynchronous load request for the root UI document is issued. -/
theorem C4_connect_before_load (argv : List String) (r : Option Unit) :
    (qtMain argv r).trace.countP Event.isConnectObjectCreated = 1 ∧
    (qtMain argv r).trace.countP Event.isLoad = 1 ∧
    beforeAll Event.isConnectObjectCreated Event.isLoad (qtMain argv r).trace = true :=
  ⟨rfl, rfl, rfl⟩

/-- C5: the load-completion observer is registered with queued dispatch; it
never runs inside the startup sequence that issued the load request (the
startup trace has no handler invocation and the exit code is still unset
there, whatever the load outcome), and the single invocation happens after
the load event, on the event-loop turn; on the failure outcome the exit code
-1 is only set in the final state, not at startup. -/
theorem C5_queued_deferred_dispatch (argv : List String) (r : Option Unit) :
    (qtMain argv r).startup.connections = [ConnType.QueuedConnection] ∧
    (qtMain argv r).startupTrace.countP Event.isInvokeHandler = 0 ∧
    (qtMain argv r).startup.exitCode = none ∧
    (qtMain argv r).trace.countP Event.isInvokeHandler = 1 ∧
    beforeAll Event.isLoad Event.isInvokeHandler (qtMain argv r).trace = true ∧
    (qtMain argv none).startup.exitCode = none ∧
    (qtMain argv none).final.exitCode = some (-1) :=
  ⟨rfl, rfl, rfl, rfl, rfl, rfl, rfl⟩

/-- C6: the registered load-completion observer is invoked at most once over
any execution of the program. -/
theorem C6_handler_at_most_once (argv : List String) (r : Option Unit) :
    (qtMain argv r).trace.countP Event.isInvokeHandler ≤ 1 :=
  Nat.le_of_eq rfl

/-- C7: in every execution both high-DPI platform attributes (enable
high-DPI scaling; use high-DPI pixmaps) are set, and all attribute-setting
events occur strictly before the application object is constructed. -/
theorem C7_attributes_before_app (argv : List String) (r : Option Unit) :
    Event.setAttribute QtAttr.AA_EnableHighDpiScaling ∈ (qtMain argv r).trace ∧
    Event.setAttribute QtAttr.AA_UseHighDpiPixmaps ∈ (qtMain argv r).trace ∧
    (qtMain argv r).trace.countP Event.isConstructApp = 1 ∧
    beforeAll Event.isSetAttribute Event.isConstructApp (qtMain argv r).trace = true :=
  ⟨List.Mem.head _, List.Mem.tail _ (List.Mem.head _), rfl, rfl⟩

set_option maxHeartbeats 3200000 in
/-- C8: none of the global state established at startup is mutated again,
including on the load-failure path: the attribute list, the four identity
strings and the context properties are identical in the startup state and
the final state, and each of the two attribute flags, each of the four
identity strings and each of the two context properties is set exactly once
in the whole trace. -/
theorem C8_state_set_once_then_frozen (argv : List String) (r : Option Unit) :
    ((qtMain argv r).final.attributes = (qtMain argv r).startup.attributes ∧
     (qtMain argv r).final.applicationName = (qtMain argv r).startup.applicationName ∧
     (qtMain argv r).final.applicationVersion = (qtMain argv r).startup.applicationVersion ∧
     (qtMain argv r).final.organizationName = (qtMain argv r).startup.organizationName ∧
     (qtMain argv r).final.organizationDomain = (qtMain argv r).startup.organizationDomain ∧
     (qtMain argv r).final.contextProps = (qtMain argv r).startup.contextProps) ∧
    ((qtMain argv r).trace.countP
        (fun e => e == Event.setAttribute QtAttr.AA_EnableHighDpiScaling) = 1 ∧
     (qtMain argv r).trace.countP
        (fun e => e == Event.setAttribute QtAttr.AA_UseHighDpiPixmaps) = 1 ∧
     (qtMain argv r).trace.countP Event.isSetApplicationName = 1 ∧
     (qtMain argv r).trace.countP Event.isSetApplicationVersion = 1 ∧
     (qtMain argv r).trace.countP Event.isSetOrganizationName = 1 ∧
     (qtMain argv r).trace.countP Event.isSetOrganizationDomain = 1 ∧
     (qtMain argv r).trace.countP Event.isSetContextProperty = 2) ∧
    (Event.setApplicationName "PuertoCho Assistant Dashboard" ∈ (qtMain argv r).trace ∧
     Event.setApplicationVersion "1.0.0" ∈ (qtMain argv r).trace ∧
     Event.setOrganizationName "PuertoCho" ∈ (qtMain argv r).trace ∧
     Event.setOrganizationDomain "puertocho.local" ∈ (qtMain argv r).trace ∧
     Event.setContextProperty "applicationVersion" "1.0.0" ∈ (qtMain argv r).trace ∧
     Event.setContextProperty "applicationName" "PuertoCho Assistant Dashboard" ∈
       (qtMain argv r).trace) := by
  cases r <;>
    exact ⟨⟨rfl, rfl, rfl, rfl, rfl, rfl⟩, ⟨rfl, rfl, rfl, rfl, rfl, rfl, rfl⟩,
      List.Mem.tail _ (List.Mem.tail _ (List.Mem.tail _ (List.Mem.head _))),
      List.Mem.tail _ (List.Mem.tail _ (List.Mem.tail _ (List.Mem.tail _
        (List.Mem.head _)))),
      List.Mem.tail _ (List.Mem.tail _ (List.Mem.tail _ (List.Mem.tail _
        (List.Mem.tail _ (List.Mem.head _))))),
      List.Mem.tail _ (List.Mem.tail _ (List.Mem.tail _ (List.Mem.tail _
        (List.Mem.tail _ (List.Mem.tail _ (List.Mem.head _)))))),
      List.Mem.tail _ (List.Mem.tail _ (List.Mem.tail _ (List.Mem.tail _
        (List.Mem.tail _ (List.Mem.tail _ (List.Mem.tail _ (List.Mem.head _))))))),
      List.Mem.tail _ (List.Mem.tail _ (List.Mem.tail _ (List.Mem.tail _
        (List.Mem.tail _ (List.Mem.tail _ (List.Mem.tail _ (List.Mem.tail _
          (List.Mem.head _))))))))⟩

/-- C9: the bootstrapper never parses or branches on the process arguments:
for any two argument vectors the traces agree once the argument payload of
the construction event is erased, the final states agree except for the
stored argument vector, the arguments are forwarded verbatim to the
application-object constructor, and the same fixed URL `qrc:/main.qml` is
requested. -/
theorem C9_argv_independence (a1 a2 : List String) (r : Option Unit) :
    (qtMain a1 r).trace.map eraseArgv = (qtMain a2 r).trace.map eraseArgv ∧
    (qtMain a1 r).startup.appArgv = some a1 ∧
    { (qtMain a1 r).final with appArgv := none } =
      { (qtMain a2 r).final with appArgv := none } ∧
    (qtMain a1 r).startup.requestedLoads = ["qrc:/main.qml"] := by
  cases r <;> exact ⟨rfl, rfl, rfl, rfl⟩

/-- C10: on every run the organization name is set to "PuertoCho" and the
organization domain to "puertocho.local", and both setter events occur
strictly before any context-property publication. -/
theorem C10_organization_identity (argv : List String) (r : Option Unit) :
    (qtMain argv r).final.organizationName = "PuertoCho" ∧
    (qtMain argv r).final.organizationDomain = "puertocho.local" ∧
    (qtMain argv r).trace.countP Event.isSetContextProperty = 2 ∧
    beforeAll
      (fun e => Event.isSetOrganizationName e || Event.isSetOrganizationDomain e)
      Event.isSetContextProperty (qtMain argv r).trace = true := by
  cases r <;> exact ⟨rfl, rfl, rfl, rfl⟩

end Puertocho
